import Mathlib

/-!
# Voxelz: `loadPng` (src/loadPng.c)

A shallow embedding of the single function of the repository.  `loadPng` is glue
around the C library and libpng, so the embedding is a function from an
environment `Env` (what every external call answers during one run, and what the
uninitialised stack slots hold) to a `Result`: the returned pointer together with
the resources still held and the ordered trace of external calls.

Conventions
* pointers are natural numbers, `0` is the null pointer;
* `uint32_t` / `png_uint_32` arithmetic is arithmetic modulo `2 ^ 32`;
* a `double` is carried as its bit pattern, the code only passes doubles along;
* libpng signalling an error is the `longjmp` back to the `setjmp` of line 25,
  which makes `setjmp` return non-zero and the code `goto cleanup`.  The locals
  `data` and `row_ptrs` are taken to keep the values they had at the `longjmp`.
-/

namespace Voxelz

/-! ## Data model -/

/-- Address in a flat address space; `0` is the C null pointer. -/
abbrev Ptr := Nat

/-- C `double`, kept as its IEEE-754 binary64 bit pattern. -/
structure Double where
  bits : Nat
  deriving DecidableEq, Repr

/-- The literal `2.2` of line 59 (binary64 pattern `0x400199999999999A`). -/
def GAMMA_2_2 : Double := ⟨0x400199999999999A⟩

/-- Modulus of `uint32_t` arithmetic. -/
def UINT32_MOD : Nat := 2 ^ 32

/-- Value `PNG_COLOR_TYPE_GRAY` of png.h. -/
def PNG_COLOR_TYPE_GRAY : Int := 0

/-- Value `PNG_COLOR_TYPE_RGB` of png.h (`PNG_COLOR_MASK_COLOR`). -/
def PNG_COLOR_TYPE_RGB : Int := 2

/-- Value `PNG_COLOR_TYPE_PALETTE` of png.h (`COLOR | PALETTE`). -/
def PNG_COLOR_TYPE_PALETTE : Int := 3

/-- Value `PNG_COLOR_TYPE_GRAY_ALPHA` of png.h (`PNG_COLOR_MASK_ALPHA`). -/
def PNG_COLOR_TYPE_GRAY_ALPHA : Int := 4

/-- Value `PNG_COLOR_TYPE_RGB_ALPHA` of png.h (`COLOR | ALPHA`). -/
def PNG_COLOR_TYPE_RGB_ALPHA : Int := 6

/-- The eight bytes `89 50 4E 47 0D 0A 1A 0A` that `png_sig_cmp` compares against. -/
def png_signature : List Nat := [137, 80, 78, 71, 13, 10, 26, 10]

/-- External calls made by `loadPng`, with the arguments that matter. -/
inductive Call where
  | fopen
  | fread (size nmemb : Nat)
  | png_sig_cmp (sig : List Nat)
  | png_create_read_struct
  | png_create_info_struct
  | png_init_io
  | png_set_sig_bytes (n : Nat)
  | png_read_info
  | png_get_IHDR
  | png_set_strip_16
  | png_set_expand
  | png_set_strip_alpha
  | png_set_gray_to_rgb
  | png_get_gAMA
  | png_set_gamma (screen_gamma file_gamma : Double)
  | png_read_update_info
  | png_get_channels
  | png_get_rowbytes
  | malloc (size : Nat)
  | free (p : Ptr)
  | png_read_image (rows : List Ptr)
  | png_read_end
  | png_destroy_read_struct
  | fclose
  deriving DecidableEq, Repr

/-- Everything outside `loadPng` that one run depends on. -/
structure Env where
  /-- Line 9: `fopen` returns a non-null stream. -/
  fopen_ok : Bool
  /-- Bytes of `assets/TextureMap.png`. -/
  file : List Nat
  /-- What the stack slot of `sig[8]` holds before `fread` (line 13 does not initialise it). -/
  stack_sig : List Nat
  /-- What the stack slot of `data` holds before line 70 initialises it. -/
  stack_data : Ptr
  /-- Line 18: `png_create_read_struct` returns non-null. -/
  create_read_struct_ok : Bool
  /-- Line 21: `png_create_info_struct` returns non-null. -/
  create_info_struct_ok : Bool
  /-- Line 30: `png_read_info` signals an error. -/
  read_info_err : Bool
  /-- Line 33: header width stored through `width`. -/
  ihdr_width : Nat
  /-- Line 33: header height stored through `height`. -/
  ihdr_height : Nat
  /-- Line 33: header bit depth. -/
  bit_depth : Int
  /-- Line 33: header color type. -/
  color_type : Int
  /-- Line 58: `none` when `png_get_gAMA` returns 0, else the gamma it stores. -/
  gAMA : Option Double
  /-- Line 61: `png_read_update_info` signals an error. -/
  read_update_info_err : Bool
  /-- Line 63: answer of `png_get_channels`. -/
  channels : Nat
  /-- Line 65: answer of `png_get_rowbytes` (a `size_t`). -/
  rowbytes : Nat
  /-- Bytes of a `png_bytep` (`sizeof(png_bytep)`, line 67). -/
  sizeof_png_bytep : Nat
  /-- Width in bits of `size_t` (line 67 multiplies in `size_t`). -/
  size_t_bits : Nat
  /-- Line 67: pointer returned by the first `malloc`, `0` when it fails. -/
  malloc_row_ptrs : Ptr
  /-- Line 70: pointer returned by the second `malloc`, `0` when it fails. -/
  malloc_data : Ptr
  /-- Line 78: `png_read_image` signals an error. -/
  read_image_err : Bool
  /-- Line 81: `png_read_end` signals an error. -/
  read_end_err : Bool
  deriving Repr

/-- Resources held and calls made so far. -/
structure State where
  /-- The stream of line 9 is open. -/
  fp_open : Bool
  /-- The read struct of line 18 exists. -/
  png_ptr_live : Bool
  /-- The info struct of line 21 exists. -/
  info_live : Bool
  /-- Size of the row-pointer block of line 67 while it is allocated. -/
  row_ptrs_blk : Option Nat
  /-- Size of the pixel block of line 70 while it is allocated. -/
  data_blk : Option Nat
  /-- Value stored through `width`, if any. -/
  width : Option Nat
  /-- Value stored through `height`, if any. -/
  height : Option Nat
  /-- External calls in program order. -/
  trace : List Call
  deriving DecidableEq, Repr

/-- What the caller observes when `loadPng` returns. -/
structure Result where
  /-- The returned `uint8_t*`. -/
  ret : Ptr
  /-- Resources and trace at the `return`. -/
  final : State
  deriving DecidableEq, Repr

/-! ## The function, stage by stage (bottom-up) -/

/-- State on entry: nothing held, nothing called. -/
def State.entry : State :=
  { fp_open := false, png_ptr_live := false, info_live := false,
    row_ptrs_blk := none, data_blk := none, width := none, height := none, trace := [] }

/-- Record one external call. -/
def State.log (s : State) (c : Call) : State :=
  { s with trace := s.trace ++ [c] }

/-- Record several external calls. -/
def State.logs (s : State) (cs : List Call) : State :=
  { s with trace := s.trace ++ cs }

/-- Content of `sig` after `fread(sig, 1, 8, fp)` (line 14): the bytes the file
has, up to eight, over the previous content of the array. -/
def fread_sig (file stack_sig : List Nat) : List Nat :=
  (List.range 8).map fun i =>
    if i < file.length then file.getD i 0 else stack_sig.getD i 0

/-- Result of `png_sig_cmp(sig, 0, 8)`: `true` (non-zero) when the eight bytes differ
from the PNG signature. -/
def png_sig_cmp (sig : List Nat) : Bool :=
  decide (sig ≠ png_signature)

/-- Lines 83-86, the `cleanup:` label; `data` is the current content of the local. -/
def cleanup (s : State) (data : Ptr) : Result :=
  let s := s.log .png_destroy_read_struct
  let s := { s with png_ptr_live := false, info_live := false }
  let s := s.log .fclose
  let s := { s with fp_open := false }
  { ret := data, final := s }

/-- Destination stored in `row_ptrs[i]` at line 77: `data + i*rowbytes`, the product
taken in `uint32_t`. -/
def row_ptr (data : Ptr) (rowbytes i : Nat) : Ptr :=
  data + (i * rowbytes) % UINT32_MOD

/-- Lines 76-81: fill the row pointers, decode, free the table, finish the stream. -/
def read_pixels (env : Env) (s : State) (rowbytes height : Nat) (row_ptrs data : Ptr) :
    Result :=
  let rows := (List.range height).map (row_ptr data rowbytes)
  let s := s.log (.png_read_image rows)
  if env.read_image_err then
    cleanup s data
  else
    let s := s.log (.free row_ptrs)
    let s := { s with row_ptrs_blk := none }
    let s := s.log .png_read_end
    if env.read_end_err then
      cleanup s data
    else
      cleanup s data

/-- Size passed to `malloc` at line 70: `rowbytes * *height` in `uint32_t`. -/
def data_size (rowbytes height : Nat) : Nat :=
  (rowbytes * height) % UINT32_MOD

/-- Lines 63-74: channel check, row size, the two allocations. -/
def allocate (env : Env) (s : State) (height : Nat) : Result :=
  let s := s.log .png_get_channels
  if env.channels ≠ 3 then
    cleanup s env.stack_data
  else
    let s := s.log .png_get_rowbytes
    let rowbytes := env.rowbytes % UINT32_MOD
    let table_size := (height * env.sizeof_png_bytep) % 2 ^ env.size_t_bits
    let s := s.log (.malloc table_size)
    let row_ptrs := env.malloc_row_ptrs
    if row_ptrs = 0 then
      cleanup s env.stack_data
    else
      let s := { s with row_ptrs_blk := some table_size }
      let s := s.log (.malloc (data_size rowbytes height))
      let data := env.malloc_data
      if data = 0 then
        let s := s.log (.free row_ptrs)
        let s := { s with row_ptrs_blk := none }
        cleanup s data
      else
        let s := { s with data_blk := some (data_size rowbytes height) }
        read_pixels env s rowbytes height row_ptrs data

/-- Lines 57-61: gamma request and `png_read_update_info`. -/
def gamma_and_update (env : Env) (s : State) (height : Nat) : Result :=
  let s := s.log .png_get_gAMA
  let s := match env.gAMA with
    | some gamma => s.log (.png_set_gamma GAMMA_2_2 gamma)
    | none => s
  let s := s.log .png_read_update_info
  if env.read_update_info_err then
    cleanup s env.stack_data
  else
    allocate env s height

/-- Body of `case PNG_COLOR_TYPE_GRAY:` (lines 43-47). -/
def case_GRAY (bit_depth : Int) : List Call :=
  (if bit_depth < 8 then [Call.png_set_expand] else []) ++ [Call.png_set_gray_to_rgb]

/-- Body of `case PNG_COLOR_TYPE_RGB:` (lines 51-52). -/
def case_RGB : List Call := []

/-- Lines 34-55: the calls made, and whether control leaves through `default: goto cleanup`. -/
def normalize (bit_depth color_type : Int) : List Call × Bool :=
  let strip := if bit_depth = 16 then [Call.png_set_strip_16] else []
  if color_type = PNG_COLOR_TYPE_PALETTE then
    (strip ++ [Call.png_set_expand], false)
  else if color_type = PNG_COLOR_TYPE_GRAY_ALPHA then
    (strip ++ Call.png_set_strip_alpha :: case_GRAY bit_depth, false)
  else if color_type = PNG_COLOR_TYPE_GRAY then
    (strip ++ case_GRAY bit_depth, false)
  else if color_type = PNG_COLOR_TYPE_RGB_ALPHA then
    (strip ++ Call.png_set_strip_alpha :: case_RGB, false)
  else if color_type = PNG_COLOR_TYPE_RGB then
    (strip ++ case_RGB, false)
  else
    (strip, true)

/-- Lines 28-55: read the header, request the format transforms. -/
def read_header (env : Env) (s : State) : Result :=
  let s := s.log .png_init_io
  let s := s.log (.png_set_sig_bytes 8)
  let s := s.log .png_read_info
  if env.read_info_err then
    cleanup s env.stack_data
  else
    let s := s.log .png_get_IHDR
    let width := env.ihdr_width % UINT32_MOD
    let height := env.ihdr_height % UINT32_MOD
    let s := { s with width := some width, height := some height }
    let s := s.logs (normalize env.bit_depth env.color_type).1
    if (normalize env.bit_depth env.color_type).2 then
      cleanup s env.stack_data
    else
      gamma_and_update env s height

/-- The function `loadPng` (lines 6-87). -/
def loadPng (env : Env) : Result :=
  let s := State.entry.log .fopen
  if !env.fopen_ok then
    { ret := 0, final := s }
  else
    let s := { s with fp_open := true }
    let s := s.log (.fread 1 8)
    let sig := fread_sig env.file env.stack_sig
    let s := s.log (.png_sig_cmp sig)
    if png_sig_cmp sig then
      { ret := 0, final := s }
    else
      let s := s.log .png_create_read_struct
      if !env.create_read_struct_ok then
        { ret := 0, final := s }
      else
        let s := { s with png_ptr_live := true }
        let s := s.log .png_create_info_struct
        if !env.create_info_struct_ok then
          { ret := 0, final := s }
        else
          let s := { s with info_live := true }
          read_header env s

/-! ## Path conditions and example environments -/

/-- An environment in which every call succeeds on an 8-bit RGB image of the given size. -/
def Env.rgb8 (width height : Nat) : Env :=
  { fopen_ok := true
    file := png_signature
    stack_sig := [0, 0, 0, 0, 0, 0, 0, 0]
    stack_data := 0xdead0000
    create_read_struct_ok := true
    create_info_struct_ok := true
    read_info_err := false
    ihdr_width := width
    ihdr_height := height
    bit_depth := 8
    color_type := PNG_COLOR_TYPE_RGB
    gAMA := none
    read_update_info_err := false
    channels := 3
    rowbytes := width * 3
    sizeof_png_bytep := 8
    size_t_bits := 64
    malloc_row_ptrs := 0x1000
    malloc_data := 0x100000
    read_image_err := false
    read_end_err := false }

/-- Color types with a `case` label in the `switch` of line 36. -/
def HandledColorType (color_type : Int) : Prop :=
  color_type = PNG_COLOR_TYPE_PALETTE ∨ color_type = PNG_COLOR_TYPE_GRAY ∨
  color_type = PNG_COLOR_TYPE_GRAY_ALPHA ∨ color_type = PNG_COLOR_TYPE_RGB ∨
  color_type = PNG_COLOR_TYPE_RGB_ALPHA

instance (color_type : Int) : Decidable (HandledColorType color_type) := by
  unfold HandledColorType; infer_instance

/-- Control gets past line 26: the file opened, the signature compare returned 0 and
both decoder structs were created. -/
def Env.reaches_setjmp (env : Env) : Bool :=
  env.fopen_ok && !png_sig_cmp (fread_sig env.file env.stack_sig) &&
  env.create_read_struct_ok && env.create_info_struct_ok

/-- Control gets to the `switch` of line 36: the header was read without error. -/
def Env.reaches_switch (env : Env) : Bool :=
  env.reaches_setjmp && !env.read_info_err

/-- Control gets to line 57: the `switch` did not take `default`. -/
def Env.passes_normalization (env : Env) : Bool :=
  env.reaches_switch && !(normalize env.bit_depth env.color_type).2

/-- Control gets to line 67: the transforms were committed and three channels reported. -/
def Env.reaches_allocation (env : Env) : Bool :=
  env.passes_normalization && !env.read_update_info_err && decide (env.channels = 3)

/-- Control gets to the row-pointer loop of line 76: both allocations succeeded. -/
def Env.reaches_row_loop (env : Env) : Bool :=
  env.reaches_allocation && decide (env.malloc_row_ptrs ≠ 0) && decide (env.malloc_data ≠ 0)

/-- Control falls from line 81 into `cleanup` without any libpng error. -/
def Env.decodes (env : Env) : Bool :=
  env.reaches_row_loop && !env.read_image_err && !env.read_end_err

/-- The `png_uint_32` stored through `height` at line 33. -/
def Env.height (env : Env) : Nat := env.ihdr_height % UINT32_MOD

/-- The `png_uint_32` stored through `width` at line 33. -/
def Env.width (env : Env) : Nat := env.ihdr_width % UINT32_MOD

/-- The local `rowbytes` of line 65. -/
def Env.rowbytes32 (env : Env) : Nat := env.rowbytes % UINT32_MOD

/-! ## Observations on a trace -/

/-- The four format transforms of lines 34-55. -/
def isTransform : Call → Bool
  | .png_set_strip_16 => true
  | .png_set_expand => true
  | .png_set_strip_alpha => true
  | .png_set_gray_to_rgb => true
  | _ => false

/-- Transform requests made before gamma handling starts at `png_get_gAMA` (line 58). -/
def transformsBeforeGamma (tr : List Call) : List Call :=
  (tr.takeWhile fun c => decide (c ≠ Call.png_get_gAMA)).filter isTransform

/-- Gamma transform requests (`png_set_gamma`). -/
def isGammaRequest : Call → Bool
  | .png_set_gamma _ _ => true
  | _ => false

/-- The part of a trace before the pipeline is committed by `png_read_update_info`. -/
def beforeCommit (tr : List Call) : List Call :=
  tr.takeWhile fun c => decide (c ≠ Call.png_read_update_info)

/-- Allocation requests (`malloc`). -/
def isMalloc : Call → Bool
  | .malloc _ => true
  | _ => false

/-- Calls that create a decoder struct. -/
def isDecoderCreate : Call → Bool
  | .png_create_read_struct => true
  | .png_create_info_struct => true
  | _ => false

/-! ## Calls of each stage, as functions of the environment alone -/

/-- Calls of the `cleanup:` label. -/
def cleanup_calls : List Call := [Call.png_destroy_read_struct, Call.fclose]

/-- Calls of lines 76-86, as a function of the environment alone. -/
def read_pixels_calls (env : Env) (rowbytes height : Nat) (row_ptrs data : Ptr) : List Call :=
  Call.png_read_image ((List.range height).map (row_ptr data rowbytes)) ::
    (if env.read_image_err then cleanup_calls
     else Call.free row_ptrs :: Call.png_read_end :: cleanup_calls)

/-- Calls of lines 63-86, as a function of the environment alone. -/
def allocate_calls (env : Env) (height : Nat) : List Call :=
  Call.png_get_channels ::
    (if env.channels ≠ 3 then cleanup_calls
     else
      Call.png_get_rowbytes ::
      Call.malloc ((height * env.sizeof_png_bytep) % 2 ^ env.size_t_bits) ::
        (if env.malloc_row_ptrs = 0 then cleanup_calls
         else
          Call.malloc (data_size (env.rowbytes % UINT32_MOD) height) ::
            (if env.malloc_data = 0 then Call.free env.malloc_row_ptrs :: cleanup_calls
             else read_pixels_calls env (env.rowbytes % UINT32_MOD) height
                    env.malloc_row_ptrs env.malloc_data)))

/-- Calls of lines 57-86, as a function of the environment alone. -/
def gamma_and_update_calls (env : Env) (height : Nat) : List Call :=
  Call.png_get_gAMA ::
    ((env.gAMA.toList.map (Call.png_set_gamma GAMMA_2_2)) ++
      Call.png_read_update_info ::
        (if env.read_update_info_err then cleanup_calls else allocate_calls env height))

/-- Calls of lines 9-33 on a run that reaches the `switch`. -/
def header_calls (env : Env) : List Call :=
  [Call.fopen, Call.fread 1 8, Call.png_sig_cmp (fread_sig env.file env.stack_sig),
   Call.png_create_read_struct, Call.png_create_info_struct, Call.png_init_io,
   Call.png_set_sig_bytes 8, Call.png_read_info, Call.png_get_IHDR]

/-! ## Specification side -/

/-- The five color types the specification documents. -/
inductive ColorKind where
  | palette
  | gray
  | grayAlpha
  | rgb
  | rgbAlpha
  deriving DecidableEq, Repr

/-- Header value of a documented color type. -/
def ColorKind.code : ColorKind → Int
  | .palette => PNG_COLOR_TYPE_PALETTE
  | .gray => PNG_COLOR_TYPE_GRAY
  | .grayAlpha => PNG_COLOR_TYPE_GRAY_ALPHA
  | .rgb => PNG_COLOR_TYPE_RGB
  | .rgbAlpha => PNG_COLOR_TYPE_RGB_ALPHA

/-- Reference table of the specification (section 4.1, step 4): first the 16-to-8
reduction when the bit depth is 16, then per color type: palette, expansion only;
gray with alpha, alpha removal, expansion when the bit depth is below 8, gray to RGB;
gray, expansion when the bit depth is below 8, gray to RGB; RGB with alpha, alpha
removal only; RGB, nothing. -/
def referenceTransforms (bit_depth : Int) (k : ColorKind) : List Call :=
  (if bit_depth = 16 then [Call.png_set_strip_16] else []) ++
  match k with
  | .palette => [Call.png_set_expand]
  | .grayAlpha =>
      [Call.png_set_strip_alpha] ++ (if bit_depth < 8 then [Call.png_set_expand] else []) ++
        [Call.png_set_gray_to_rgb]
  | .gray => (if bit_depth < 8 then [Call.png_set_expand] else []) ++ [Call.png_set_gray_to_rgb]
  | .rgbAlpha => [Call.png_set_strip_alpha]
  | .rgb => []

/-- A 16-bit gray image with alpha that declares the gamma 1/2.2. -/
def Env.grayAlpha16 : Env :=
  { Env.rgb8 2 2 with
    bit_depth := 16, color_type := PNG_COLOR_TYPE_GRAY_ALPHA, gAMA := some ⟨0x3FDD1745D1745D17⟩ }

/-- The image of the overflow: 65536 x 21846 pixels, 8-bit RGB, every call succeeds. -/
def Env.wide : Env := Env.rgb8 65536 21846

/-- Row `i` of `rowbytes` bytes, at the offset line 77 gives it, ends inside the block
line 70 asks for. -/
def row_inside (rowbytes height i : Nat) : Prop :=
  (i * rowbytes) % UINT32_MOD + rowbytes ≤ data_size rowbytes height

instance (rowbytes height i : Nat) : Decidable (row_inside rowbytes height i) := by
  unfold row_inside; infer_instance

/-- Line 70 has been executed: the local `data` holds the result of the second `malloc`. -/
def Env.data_assigned (env : Env) : Bool :=
  env.reaches_allocation && decide (env.malloc_row_ptrs ≠ 0)

/-- What a stage leaves behind when it starts with no heap block held: the returned
pointer, the three handles released, and the two heap blocks as given. -/
def leaves (r : Result) (ret : Ptr) (data_blk row_ptrs_blk : Option Nat) : Prop :=
  r.ret = ret ∧ r.final.fp_open = false ∧ r.final.png_ptr_live = false ∧
  r.final.info_live = false ∧ r.final.data_blk = data_blk ∧
  r.final.row_ptrs_blk = row_ptrs_blk

/-- A valid 2x2 image whose pixel data is corrupt: `png_read_image` signals an error. -/
def Env.corruptData : Env := { Env.rgb8 2 2 with read_image_err := true }

/-- A valid 2x2 image whose stream ends badly: `png_read_end` signals an error. -/
def Env.corruptEnd : Env := { Env.rgb8 2 2 with read_end_err := true }

/-- A header carrying the reserved color type 5. -/
def Env.reservedColorType : Env := { Env.rgb8 2 2 with color_type := 5 }

/-- A file that starts with a GIF header instead of the PNG signature. -/
def Env.badSignature : Env :=
  { Env.rgb8 2 2 with file := [0x47, 0x49, 0x46, 0x38, 0x39, 0x61, 0x02, 0x00] }

/-- A valid file on a run where `png_create_info_struct` returns null. -/
def Env.noInfoStruct : Env := { Env.rgb8 2 2 with create_info_struct_ok := false }

/-- A valid 2x2 image on a run where the first `malloc` (row-pointer table) fails. -/
def Env.rowTableOOM : Env := { Env.rgb8 2 2 with malloc_row_ptrs := 0 }

/-- A file cut after the first four signature bytes, read while the stack slot of
`sig` still holds the signature of an earlier call; `png_read_info` then hits the end
of the file. -/
def Env.truncatedFile : Env :=
  { Env.rgb8 2 2 with
    file := [137, 80, 78, 71]
    stack_sig := [137, 80, 78, 71, 13, 10, 26, 10]
    read_info_err := true }

/-- Modelled from the spec: the channel count libpng reports after
`png_read_update_info` (libpng is not part of the repository), from the header color
type, the presence of a tRNS chunk and the transforms requested.  As the
specification words the library semantics: expansion turns palette indices into RGB
and a transparency chunk into an alpha channel (sub-8-bit gray becomes 8-bit gray,
still one channel); gray-to-RGB turns gray into RGB; alpha removal leaves no alpha
channel. -/
def lib_channels (k : ColorKind) (tRNS : Bool) (requested : List Call) : Nat :=
  let expand := decide (Call.png_set_expand ∈ requested)
  let color := match k with
    | .palette => expand
    | .gray => decide (Call.png_set_gray_to_rgb ∈ requested)
    | .grayAlpha => decide (Call.png_set_gray_to_rgb ∈ requested)
    | .rgb => true
    | .rgbAlpha => true
  let alpha := match k with
    | .grayAlpha => true
    | .rgbAlpha => true
    | _ => tRNS && expand
  let alpha := alpha && !decide (Call.png_set_strip_alpha ∈ requested)
  (if color then 3 else 1) + (if alpha then 1 else 0)

/-- Bit depths the PNG format allows for each color type. -/
def LegalBitDepth (bit_depth : Int) : ColorKind → Prop
  | .palette => bit_depth = 1 ∨ bit_depth = 2 ∨ bit_depth = 4 ∨ bit_depth = 8
  | .gray => bit_depth = 1 ∨ bit_depth = 2 ∨ bit_depth = 4 ∨ bit_depth = 8 ∨ bit_depth = 16
  | .grayAlpha => bit_depth = 8 ∨ bit_depth = 16
  | .rgb => bit_depth = 8 ∨ bit_depth = 16
  | .rgbAlpha => bit_depth = 8 ∨ bit_depth = 16

instance (bit_depth : Int) (k : ColorKind) : Decidable (LegalBitDepth bit_depth k) := by
  cases k <;> unfold LegalBitDepth <;> infer_instance

/-- An 8-bit palette image with a tRNS chunk: after expansion libpng reports RGB plus
alpha, four channels of one byte. -/
def Env.paletteWithTRNS : Env :=
  { Env.rgb8 2 2 with color_type := PNG_COLOR_TYPE_PALETTE, channels := 4, rowbytes := 8 }

/-- A 4-bit gray image with a tRNS chunk: after expansion and gray-to-RGB libpng
reports RGB plus alpha, four channels of one byte. -/
def Env.gray4WithTRNS : Env :=
  { Env.rgb8 2 2 with
    bit_depth := 4, color_type := PNG_COLOR_TYPE_GRAY, channels := 4, rowbytes := 8 }

/-! ## Lemmas: shape of the trace, resources at the return -/

theorem cleanup_trace (s : State) (data : Ptr) :
    (cleanup s data).final.trace = s.trace ++ cleanup_calls := by
  simp [cleanup, State.log, cleanup_calls]

theorem read_pixels_trace (env : Env) (s : State) (rowbytes height : Nat)
    (row_ptrs data : Ptr) :
    (read_pixels env s rowbytes height row_ptrs data).final.trace =
      s.trace ++ read_pixels_calls env rowbytes height row_ptrs data := by
  unfold read_pixels read_pixels_calls
  split_ifs <;> simp [cleanup_trace, State.log]

theorem allocate_trace (env : Env) (s : State) (height : Nat) :
    (allocate env s height).final.trace = s.trace ++ allocate_calls env height := by
  unfold allocate allocate_calls
  split_ifs <;> simp [cleanup_trace, read_pixels_trace, State.log, *]

theorem gamma_and_update_trace (env : Env) (s : State) (height : Nat) :
    (gamma_and_update env s height).final.trace =
      s.trace ++ gamma_and_update_calls env height := by
  unfold gamma_and_update gamma_and_update_calls
  cases hg : env.gAMA <;> split_ifs <;>
    simp [cleanup_trace, allocate_trace, State.log]

theorem allocate_calls_no_config (env : Env) (height : Nat) :
    ∀ c ∈ allocate_calls env height,
      isGammaRequest c = false ∧ isTransform c = false ∧ c ≠ Call.png_read_update_info := by
  unfold allocate_calls read_pixels_calls cleanup_calls
  split_ifs <;> simp [isGammaRequest, isTransform]

theorem reaches_setjmp_iff (env : Env) :
    env.reaches_setjmp = true ↔
      env.fopen_ok = true ∧ png_sig_cmp (fread_sig env.file env.stack_sig) = false ∧
      env.create_read_struct_ok = true ∧ env.create_info_struct_ok = true := by
  simp [Env.reaches_setjmp, and_assoc]

theorem reaches_switch_iff (env : Env) :
    env.reaches_switch = true ↔
      env.fopen_ok = true ∧ png_sig_cmp (fread_sig env.file env.stack_sig) = false ∧
      env.create_read_struct_ok = true ∧ env.create_info_struct_ok = true ∧
      env.read_info_err = false := by
  simp [Env.reaches_switch, reaches_setjmp_iff, and_assoc]

/-- The trace of a run that reaches the `switch`. -/
theorem loadPng_trace (env : Env) (h : env.reaches_switch = true) :
    (loadPng env).final.trace =
      header_calls env ++ (normalize env.bit_depth env.color_type).1 ++
        (if (normalize env.bit_depth env.color_type).2 then cleanup_calls
         else gamma_and_update_calls env env.height) := by
  obtain ⟨h1, h2, h3, h4, h5⟩ := (reaches_switch_iff env).1 h
  simp only [loadPng, read_header, h1, h2, h3, h4, h5, Bool.not_true, Bool.false_eq_true,
    if_false]
  split_ifs <;>
    simp [cleanup_trace, gamma_and_update_trace, State.log, State.logs, State.entry,
      header_calls, Env.height]

theorem normalize_handled (bit_depth color_type : Int) (h : HandledColorType color_type) :
    (normalize bit_depth color_type).2 = false := by
  rcases h with h | h | h | h | h <;> subst h <;>
    simp [normalize, PNG_COLOR_TYPE_PALETTE, PNG_COLOR_TYPE_GRAY, PNG_COLOR_TYPE_GRAY_ALPHA,
      PNG_COLOR_TYPE_RGB, PNG_COLOR_TYPE_RGB_ALPHA]

theorem normalize_unhandled (bit_depth color_type : Int) (h : ¬ HandledColorType color_type) :
    (normalize bit_depth color_type).2 = true := by
  unfold HandledColorType at h
  unfold normalize
  split_ifs <;> simp_all

theorem normalize_transforms (bit_depth color_type : Int) :
    ∀ c ∈ (normalize bit_depth color_type).1, isTransform c = true := by
  unfold normalize case_GRAY case_RGB
  split_ifs <;> simp [isTransform]

theorem takeWhile_stop {α : Type} (p : α → Bool) (l rest : List α) (a : α)
    (hl : ∀ x ∈ l, p x = true) (ha : p a = false) :
    (l ++ a :: rest).takeWhile p = l := by
  rw [List.takeWhile_append_of_pos hl, List.takeWhile_cons_of_neg (by simp [ha])]
  simp

theorem header_calls_props (env : Env) :
    ∀ c ∈ header_calls env,
      isTransform c = false ∧ isGammaRequest c = false ∧ c ≠ Call.png_get_gAMA ∧
      c ≠ Call.png_read_update_info := by
  simp [header_calls, isTransform, isGammaRequest]

theorem isTransform_props (c : Call) (h : isTransform c = true) :
    isGammaRequest c = false ∧ c ≠ Call.png_get_gAMA ∧ c ≠ Call.png_read_update_info := by
  cases c <;> simp_all [isTransform, isGammaRequest]

/-- The transform requests before gamma handling are exactly the calls of lines 34-55. -/
theorem transformsBeforeGamma_loadPng (env : Env) (h : env.reaches_switch = true)
    (hct : HandledColorType env.color_type) :
    transformsBeforeGamma (loadPng env).final.trace =
      (normalize env.bit_depth env.color_type).1 := by
  rw [loadPng_trace env h, normalize_handled _ _ hct]
  simp only [Bool.false_eq_true, if_false, gamma_and_update_calls, transformsBeforeGamma]
  rw [takeWhile_stop]
  · rw [List.filter_append, List.filter_eq_self.2 (normalize_transforms _ _),
      List.filter_eq_nil_iff.2, List.nil_append]
    intro c hc
    simp [(header_calls_props env c hc).1]
  · intro c hc
    rcases List.mem_append.1 hc with hc | hc
    · simpa using (header_calls_props env c hc).2.2.1
    · simpa using (isTransform_props c (normalize_transforms _ _ c hc)).2.1
  · simp

theorem handled_iff_kind (color_type : Int) :
    HandledColorType color_type ↔ ∃ k : ColorKind, color_type = k.code := by
  constructor
  · rintro (h | h | h | h | h)
    · exact ⟨.palette, h⟩
    · exact ⟨.gray, h⟩
    · exact ⟨.grayAlpha, h⟩
    · exact ⟨.rgb, h⟩
    · exact ⟨.rgbAlpha, h⟩
  · rintro ⟨k, rfl⟩
    cases k <;> simp [HandledColorType, ColorKind.code]

theorem normalize_eq_reference (bit_depth : Int) (k : ColorKind) :
    (normalize bit_depth k.code).1 = referenceTransforms bit_depth k := by
  cases k <;>
    simp [normalize, referenceTransforms, ColorKind.code, case_GRAY, case_RGB,
      PNG_COLOR_TYPE_PALETTE, PNG_COLOR_TYPE_GRAY, PNG_COLOR_TYPE_GRAY_ALPHA,
      PNG_COLOR_TYPE_RGB, PNG_COLOR_TYPE_RGB_ALPHA]

theorem cleanup_leaves (s : State) (data : Ptr) :
    leaves (cleanup s data) data s.data_blk s.row_ptrs_blk := by
  simp [leaves, cleanup, State.log]

theorem read_pixels_leaves (env : Env) (s : State) (rowbytes height : Nat)
    (row_ptrs data : Ptr) :
    leaves (read_pixels env s rowbytes height row_ptrs data) data s.data_blk
      (if env.read_image_err then s.row_ptrs_blk else none) := by
  unfold read_pixels
  split_ifs <;> simp [leaves, cleanup, State.log]

theorem allocate_leaves (env : Env) (s : State) (height : Nat)
    (hd : s.data_blk = none) (hr : s.row_ptrs_blk = none) :
    leaves (allocate env s height)
      (if env.channels = 3 ∧ env.malloc_row_ptrs ≠ 0 then env.malloc_data else env.stack_data)
      (if env.channels = 3 ∧ env.malloc_row_ptrs ≠ 0 ∧ env.malloc_data ≠ 0
       then some (data_size (env.rowbytes % UINT32_MOD) height) else none)
      (if env.channels = 3 ∧ env.malloc_row_ptrs ≠ 0 ∧ env.malloc_data ≠ 0 ∧
          env.read_image_err = true
       then some ((height * env.sizeof_png_bytep) % 2 ^ env.size_t_bits) else none) := by
  unfold allocate
  split_ifs <;> simp_all [leaves, cleanup, read_pixels, State.log]

theorem gamma_and_update_leaves (env : Env) (s : State) (height : Nat)
    (hd : s.data_blk = none) (hr : s.row_ptrs_blk = none) :
    leaves (gamma_and_update env s height)
      (if env.read_update_info_err = false ∧ env.channels = 3 ∧ env.malloc_row_ptrs ≠ 0
       then env.malloc_data else env.stack_data)
      (if env.read_update_info_err = false ∧ env.channels = 3 ∧ env.malloc_row_ptrs ≠ 0 ∧
          env.malloc_data ≠ 0
       then some (data_size (env.rowbytes % UINT32_MOD) height) else none)
      (if env.read_update_info_err = false ∧ env.channels = 3 ∧ env.malloc_row_ptrs ≠ 0 ∧
          env.malloc_data ≠ 0 ∧ env.read_image_err = true
       then some ((height * env.sizeof_png_bytep) % 2 ^ env.size_t_bits) else none) := by
  unfold gamma_and_update
  cases hg : env.gAMA <;> cases hu : env.read_update_info_err
  all_goals first
    | simpa [hu] using allocate_leaves env _ height (by simpa [State.log] using hd)
        (by simpa [State.log] using hr)
    | simpa [hu, hd, hr, State.log] using cleanup_leaves _ env.stack_data

/-- Return value and resources of every run that gets past line 26. -/
theorem loadPng_after_setjmp (env : Env) (h : env.reaches_setjmp = true) :
    leaves (loadPng env)
      (if env.data_assigned then env.malloc_data else env.stack_data)
      (if env.reaches_row_loop then some (data_size env.rowbytes32 env.height) else none)
      (if env.reaches_row_loop && env.read_image_err
       then some ((env.height * env.sizeof_png_bytep) % 2 ^ env.size_t_bits) else none) := by
  obtain ⟨h1, h2, h3, h4⟩ := (reaches_setjmp_iff env).1 h
  simp only [Env.data_assigned, Env.reaches_row_loop, Env.reaches_allocation,
    Env.passes_normalization, Env.reaches_switch, h, Env.rowbytes32, Env.height]
  simp only [loadPng, read_header, h1, h2, h3, h4, Bool.not_true, Bool.false_eq_true, if_false]
  cases hi : env.read_info_err
  · cases hn : (normalize env.bit_depth env.color_type).2
    · convert gamma_and_update_leaves env _ (env.ihdr_height % UINT32_MOD) ?_ ?_ using 1
      all_goals simp [State.log, State.logs, State.entry, and_assoc]
    · simpa [State.log, State.logs, State.entry] using cleanup_leaves _ env.stack_data
  · simpa [State.log, State.logs, State.entry] using cleanup_leaves _ env.stack_data

theorem reaches_row_loop_iff (env : Env) :
    env.reaches_row_loop = true ↔
      env.reaches_switch = true ∧ (normalize env.bit_depth env.color_type).2 = false ∧
      env.read_update_info_err = false ∧ env.channels = 3 ∧ env.malloc_row_ptrs ≠ 0 ∧
      env.malloc_data ≠ 0 := by
  simp [Env.reaches_row_loop, Env.reaches_allocation, Env.passes_normalization, and_assoc]

theorem reaches_row_loop_setjmp (env : Env) (h : env.reaches_row_loop = true) :
    env.reaches_setjmp = true ∧ env.data_assigned = true := by
  simp only [Env.reaches_row_loop, Env.data_assigned, Env.reaches_allocation,
    Env.passes_normalization, Env.reaches_switch, Bool.and_eq_true] at h ⊢
  tauto

/-- The trace of a run that reaches the row-pointer loop. -/
theorem loadPng_trace_row_loop (env : Env) (h : env.reaches_row_loop = true) :
    (loadPng env).final.trace =
      header_calls env ++ (normalize env.bit_depth env.color_type).1 ++
        Call.png_get_gAMA :: (env.gAMA.toList.map (Call.png_set_gamma GAMMA_2_2) ++
          [Call.png_read_update_info, Call.png_get_channels, Call.png_get_rowbytes,
           Call.malloc ((env.height * env.sizeof_png_bytep) % 2 ^ env.size_t_bits),
           Call.malloc (data_size env.rowbytes32 env.height)] ++
          read_pixels_calls env env.rowbytes32 env.height env.malloc_row_ptrs
            env.malloc_data) := by
  obtain ⟨h1, h2, h3, h4, h5, h6⟩ := (reaches_row_loop_iff env).1 h
  rw [loadPng_trace env h1]
  simp [h2, h3, h4, h5, h6, gamma_and_update_calls, allocate_calls, Env.rowbytes32]

/-- On a run that reaches the row-pointer loop the decoder is handed, for row `i`,
the address `row_ptr data rowbytes i`, for every `i` below the height. -/
theorem loadPng_row_table (env : Env) (h : env.reaches_row_loop = true) :
    Call.png_read_image ((List.range env.height).map (row_ptr env.malloc_data env.rowbytes32))
      ∈ (loadPng env).final.trace := by
  rw [loadPng_trace_row_loop env h]
  simp [read_pixels_calls]

/-- Without wrap-around in `rowbytes * height`, every row lies inside the block. -/
theorem row_inside_of_no_wrap (rowbytes height i : Nat)
    (hno : rowbytes * height < UINT32_MOD) (hi : i < height) :
    row_inside rowbytes height i := by
  have h1 : i * rowbytes + rowbytes ≤ rowbytes * height := by
    calc i * rowbytes + rowbytes = (i + 1) * rowbytes := by ring
      _ ≤ height * rowbytes := Nat.mul_le_mul_right _ hi
      _ = rowbytes * height := by ring
  have h2 : i * rowbytes < UINT32_MOD := by omega
  simp only [row_inside, data_size, Nat.mod_eq_of_lt h2, Nat.mod_eq_of_lt hno]
  exact h1

/-- Without wrap-around in `width * 3 * height`, line 70 asks for `width*height*3` bytes. -/
theorem data_size_of_no_wrap (width height : Nat) (hno : width * 3 * height < UINT32_MOD) :
    data_size ((width * 3) % UINT32_MOD) height = width * height * 3 := by
  rcases Nat.eq_zero_or_pos height with rfl | hpos
  · simp [data_size]
  · have h1 : width * 3 ≤ width * 3 * height := Nat.le_mul_of_pos_right _ hpos
    have h2 : width * 3 < UINT32_MOD := by omega
    simp only [data_size, Nat.mod_eq_of_lt h2, Nat.mod_eq_of_lt hno]
    ring

/-- Runs that decode without error return the second `malloc` result, and the block
behind it has the size line 70 computed. -/
theorem loadPng_decodes (env : Env) (h : env.decodes = true) :
    (loadPng env).ret = env.malloc_data ∧ (loadPng env).ret ≠ 0 ∧
    (loadPng env).final.data_blk = some (data_size env.rowbytes32 env.height) ∧
    (loadPng env).final.row_ptrs_blk = none := by
  have hrow : env.reaches_row_loop = true := by
    simp only [Env.decodes, Bool.and_eq_true] at h; exact h.1.1
  have himg : env.read_image_err = false := by
    simp only [Env.decodes, Bool.and_eq_true, Bool.not_eq_true'] at h; exact h.1.2
  obtain ⟨hs, hd⟩ := reaches_row_loop_setjmp env hrow
  obtain ⟨r1, -, -, -, r5, r6⟩ := loadPng_after_setjmp env hs
  have hne := ((reaches_row_loop_iff env).1 hrow).2.2.2.2.2
  simp only [hd, if_true] at r1
  simp only [hrow, if_true] at r5
  simp only [himg, Bool.and_false, Bool.false_eq_true, if_false] at r6
  exact ⟨r1, by rw [r1]; exact hne, r5, r6⟩

/-- A libpng error after the pixel block was allocated: the block is returned and
stays allocated; the row-pointer table stays allocated when the error comes from
`png_read_image`. -/
theorem loadPng_decode_error (env : Env) (h : env.reaches_row_loop = true) :
    (loadPng env).ret = env.malloc_data ∧ (loadPng env).ret ≠ 0 ∧
    (loadPng env).final.data_blk = some (data_size env.rowbytes32 env.height) ∧
    (env.read_image_err = true → (loadPng env).final.row_ptrs_blk =
      some ((env.height * env.sizeof_png_bytep) % 2 ^ env.size_t_bits)) := by
  obtain ⟨hs, hd⟩ := reaches_row_loop_setjmp env h
  obtain ⟨r1, -, -, -, r5, r6⟩ := loadPng_after_setjmp env hs
  have hne := ((reaches_row_loop_iff env).1 h).2.2.2.2.2
  simp only [hd, if_true] at r1
  simp only [h, if_true] at r5
  refine ⟨r1, by rw [r1]; exact hne, r5, fun himg => ?_⟩
  simpa [h, himg] using r6

/-- A read byte that differs from the signature makes `png_sig_cmp` return non-zero,
whatever the stack held. -/
theorem png_sig_cmp_of_mismatch (file stack_sig : List Nat) (i : Nat) (hi : i < 8)
    (hlen : i < file.length) (hne : file.getD i 0 ≠ png_signature.getD i 0) :
    png_sig_cmp (fread_sig file stack_sig) = true := by
  simp only [png_sig_cmp, decide_eq_true_eq]
  intro heq
  apply hne
  have h := congrArg (fun l => l.getD i 0) heq
  simp only [fread_sig] at h
  rw [List.getD_eq_getElem?_getD, List.getElem?_map, List.getElem?_range (by simpa using hi)] at h
  simpa [hlen] using h

/-- With eight or more bytes in the file, the compare sees exactly the first eight. -/
theorem fread_sig_of_long (file stack_sig : List Nat) (h : 8 ≤ file.length) :
    fread_sig file stack_sig = file.take 8 := by
  apply List.ext_getElem
  · simp [fread_sig, h]
  · intro i h1 h2
    have hi : i < 8 := by simpa [fread_sig] using h1
    have hl : i < file.length := by omega
    simp [fread_sig, hl, List.getD_eq_getElem?_getD, List.getElem?_eq_getElem hl]

/-- The three `return 0` statements of lines 16, 20 and 23: null is returned, nothing
was allocated, and neither `fclose` nor `png_destroy_read_struct` has been called, so
the stream of line 9 is still open. -/
theorem loadPng_early_return (env : Env) (hopen : env.fopen_ok = true)
    (h : env.reaches_setjmp = false) :
    (loadPng env).ret = 0 ∧ (loadPng env).final.fp_open = true ∧
    (loadPng env).final.data_blk = none ∧ (loadPng env).final.row_ptrs_blk = none ∧
    (loadPng env).final.png_ptr_live =
      (!png_sig_cmp (fread_sig env.file env.stack_sig) && env.create_read_struct_ok) ∧
    (∀ c ∈ (loadPng env).final.trace, isMalloc c = false) := by
  simp only [Env.reaches_setjmp, hopen, Bool.true_and] at h
  simp only [loadPng, hopen, Bool.not_true, Bool.false_eq_true, if_false]
  cases hsig : png_sig_cmp (fread_sig env.file env.stack_sig) <;>
    cases hrd : env.create_read_struct_ok <;>
      cases hinfo : env.create_info_struct_ok <;>
        simp_all [State.log, State.entry, isMalloc]

/-- Signature mismatch: null is returned before any decoder struct is created. -/
theorem loadPng_sig_mismatch (env : Env) (hopen : env.fopen_ok = true)
    (hsig : png_sig_cmp (fread_sig env.file env.stack_sig) = true) :
    (loadPng env).ret = 0 ∧ (loadPng env).final.data_blk = none ∧
    (∀ c ∈ (loadPng env).final.trace, isDecoderCreate c = false ∧ isMalloc c = false) := by
  simp [loadPng, hopen, hsig, State.log, State.entry, isMalloc, isDecoderCreate]

/-- Unhandled color type: control leaves through `default: goto cleanup`; nothing was
allocated, and the value returned is what the uninitialised `data` holds. -/
theorem loadPng_unhandled (env : Env) (hreach : env.reaches_switch = true)
    (hct : ¬ HandledColorType env.color_type) :
    (loadPng env).ret = env.stack_data ∧ (loadPng env).final.data_blk = none ∧
    (∀ c ∈ (loadPng env).final.trace, isMalloc c = false) := by
  have hn := normalize_unhandled env.bit_depth _ hct
  have hs : env.reaches_setjmp = true := by
    simp only [Env.reaches_switch, Bool.and_eq_true] at hreach; exact hreach.1
  obtain ⟨r1, -, -, -, r5, -⟩ := loadPng_after_setjmp env hs
  have hd : env.data_assigned = false := by
    simp [Env.data_assigned, Env.reaches_allocation, Env.passes_normalization, hn]
  have hr : env.reaches_row_loop = false := by
    simp [Env.reaches_row_loop, Env.reaches_allocation, Env.passes_normalization, hn]
  refine ⟨by simpa [hd] using r1, by simpa [hr] using r5, ?_⟩
  rw [loadPng_trace env hreach, hn]
  intro c hc
  simp only [if_true, List.mem_append] at hc
  rcases hc with (hc | hc) | hc
  · revert c; simp [header_calls, isMalloc]
  · have := normalize_transforms _ _ c hc
    cases c <;> simp_all [isTransform, isMalloc]
  · revert c; simp [cleanup_calls, isMalloc]

/-- Failure of the second `malloc` (pixel block): null is returned and the row-pointer
table has been freed. -/
theorem loadPng_data_malloc_fails (env : Env) (h : env.reaches_allocation = true)
    (hrow : env.malloc_row_ptrs ≠ 0) (hdata : env.malloc_data = 0) :
    (loadPng env).ret = 0 ∧ (loadPng env).final.data_blk = none ∧
    (loadPng env).final.row_ptrs_blk = none := by
  have hs : env.reaches_setjmp = true := by
    simp only [Env.reaches_allocation, Env.passes_normalization, Env.reaches_switch,
      Bool.and_eq_true] at h
    exact h.1.1.1.1
  obtain ⟨r1, -, -, -, r5, r6⟩ := loadPng_after_setjmp env hs
  have hd : env.data_assigned = true := by simp [Env.data_assigned, h, hrow]
  have hr : env.reaches_row_loop = false := by simp [Env.reaches_row_loop, hdata]
  exact ⟨by simpa [hd, hdata] using r1, by simpa [hr] using r5, by simpa [hr] using r6⟩

/-- Failure of the first `malloc` (row-pointer table): nothing stays allocated, and the
value returned is what the uninitialised `data` holds. -/
theorem loadPng_row_malloc_fails (env : Env) (h : env.reaches_allocation = true)
    (hrow : env.malloc_row_ptrs = 0) :
    (loadPng env).ret = env.stack_data ∧ (loadPng env).final.data_blk = none ∧
    (loadPng env).final.row_ptrs_blk = none := by
  have hs : env.reaches_setjmp = true := by
    simp only [Env.reaches_allocation, Env.passes_normalization, Env.reaches_switch,
      Bool.and_eq_true] at h
    exact h.1.1.1.1
  obtain ⟨r1, -, -, -, r5, r6⟩ := loadPng_after_setjmp env hs
  have hd : env.data_assigned = false := by simp [Env.data_assigned, hrow]
  have hr : env.reaches_row_loop = false := by simp [Env.reaches_row_loop, hrow]
  exact ⟨by simpa [hd] using r1, by simpa [hr] using r5, by simpa [hr] using r6⟩

/-- Every run that gets past line 26 ends in `cleanup`: the stream is closed and both
decoder structs are released. -/
theorem loadPng_teardown (env : Env) (h : env.reaches_setjmp = true) :
    (loadPng env).final.fp_open = false ∧ (loadPng env).final.png_ptr_live = false ∧
    (loadPng env).final.info_live = false := by
  obtain ⟨-, r2, r3, r4, -, -⟩ := loadPng_after_setjmp env h
  exact ⟨r2, r3, r4⟩

/-- Without wrap-around, a run that decodes returns a block of `width*height*3` bytes. -/
theorem loadPng_alloc_exact_of_no_wrap (env : Env) (h : env.decodes = true)
    (hrow : env.rowbytes = env.width * 3)
    (hno : env.width * 3 * env.height < UINT32_MOD) :
    (loadPng env).final.data_blk = some (env.width * env.height * 3) := by
  rw [(loadPng_decodes env h).2.2.1, Env.rowbytes32, hrow, data_size_of_no_wrap _ _ hno]

/-- A file of eight bytes or more that does not start with the signature: null is
returned, no decoder struct is created and nothing is allocated. -/
theorem loadPng_rejects_long_non_png (env : Env) (hopen : env.fopen_ok = true)
    (hlen : 8 ≤ env.file.length) (hne : env.file.take 8 ≠ png_signature) :
    (loadPng env).ret = 0 ∧ (loadPng env).final.data_blk = none ∧
    (∀ c ∈ (loadPng env).final.trace, isDecoderCreate c = false ∧ isMalloc c = false) := by
  apply loadPng_sig_mismatch env hopen
  rw [fread_sig_of_long _ _ hlen]
  simpa [png_sig_cmp] using hne

/-- The file does not open (line 11): null is returned and nothing is held. -/
theorem loadPng_fopen_fails (env : Env) (hopen : env.fopen_ok = false) :
    (loadPng env).ret = 0 ∧ (loadPng env).final.fp_open = false ∧
    (loadPng env).final.data_blk = none ∧ (loadPng env).final.trace = [Call.fopen] := by
  simp [loadPng, hopen, State.log, State.entry]

/-- A run that does not reach the `switch` makes only these calls. -/
theorem loadPng_trace_early (env : Env) (h : env.reaches_switch = false) :
    ∀ c ∈ (loadPng env).final.trace,
      c ∈ [Call.fopen, Call.fread 1 8, Call.png_sig_cmp (fread_sig env.file env.stack_sig),
        Call.png_create_read_struct, Call.png_create_info_struct, Call.png_init_io,
        Call.png_set_sig_bytes 8, Call.png_read_info, Call.png_destroy_read_struct,
        Call.fclose] := by
  simp only [Env.reaches_switch, Env.reaches_setjmp] at h
  cases h1 : env.fopen_ok <;> cases h2 : png_sig_cmp (fread_sig env.file env.stack_sig) <;>
    cases h3 : env.create_read_struct_ok <;> cases h4 : env.create_info_struct_ok <;>
      cases h5 : env.read_info_err <;>
        simp_all [loadPng, read_header, cleanup, State.log, State.entry]

/-- The path condition `reaches_switch` read off the trace: `png_get_IHDR` was called. -/
theorem reaches_switch_iff_trace (env : Env) :
    env.reaches_switch = true ↔ Call.png_get_IHDR ∈ (loadPng env).final.trace := by
  constructor
  · intro h
    rw [loadPng_trace env h]
    simp [header_calls]
  · intro h
    by_contra hn
    have := loadPng_trace_early env (by simpa using hn) _ h
    simp at this

/-- The path condition `passes_normalization` read off the trace: gamma handling
started, `png_get_gAMA` was called. -/
theorem passes_normalization_iff_trace (env : Env) :
    env.passes_normalization = true ↔ Call.png_get_gAMA ∈ (loadPng env).final.trace := by
  by_cases hs : env.reaches_switch = true
  · rw [loadPng_trace env hs]
    cases hn : (normalize env.bit_depth env.color_type).2
    · simp [Env.passes_normalization, hs, hn, gamma_and_update_calls]
    · simp only [Env.passes_normalization, hs, hn, Bool.not_true, Bool.and_false,
        Bool.false_eq_true, if_true, false_iff, List.mem_append, not_or]
      refine ⟨⟨?_, ?_⟩, ?_⟩
      · simp [header_calls]
      · intro h
        have := (isTransform_props _ (normalize_transforms _ _ _ h)).2.1
        exact this rfl
      · simp [cleanup_calls]
  · have hn : Call.png_get_gAMA ∉ (loadPng env).final.trace := by
      intro h
      have := loadPng_trace_early env (by simpa using hs) _ h
      simp at this
    simp [Env.passes_normalization, hs, hn]

/-- The path condition `reaches_row_loop` read off the trace: `png_read_image` was
called. -/
theorem reaches_row_loop_iff_trace (env : Env) :
    env.reaches_row_loop = true ↔
      ∃ rows, Call.png_read_image rows ∈ (loadPng env).final.trace := by
  constructor
  · intro h
    exact ⟨_, loadPng_row_table env h⟩
  · rintro ⟨rows, h⟩
    by_cases hs : env.reaches_switch = true
    · rw [loadPng_trace env hs] at h
      rw [reaches_row_loop_iff]
      refine ⟨hs, ?_⟩
      simp only [List.mem_append] at h
      rcases h with (h | h) | h
      · simp [header_calls] at h
      · have := normalize_transforms _ _ _ h
        simp [isTransform] at this
      · cases hn : (normalize env.bit_depth env.color_type).2
        · cases hu : env.read_update_info_err
          · by_cases hc : env.channels = 3
            · by_cases hr : env.malloc_row_ptrs = 0
              · simp [hn, hu, hc, hr, gamma_and_update_calls, allocate_calls,
                  cleanup_calls] at h
              · by_cases hd : env.malloc_data = 0
                · simp [hn, hu, hc, hr, hd, gamma_and_update_calls, allocate_calls,
                    cleanup_calls] at h
                · exact ⟨rfl, rfl, hc, hr, hd⟩
            · simp [hn, hu, hc, gamma_and_update_calls, allocate_calls, cleanup_calls] at h
          · simp [hn, hu, gamma_and_update_calls, cleanup_calls] at h
        · simp [hn, cleanup_calls] at h
    · have := loadPng_trace_early env (by simpa using hs) _ h
      simp at this

/-- Channel count under the library semantics for the transforms `loadPng` requests:
3, except 4 when a tRNS chunk is present and the color type is palette or gray with a
bit depth below 8 (expansion makes the chunk an alpha channel and no alpha removal is
requested). -/
theorem lib_channels_requested (env : Env) (k : ColorKind) (tRNS : Bool)
    (hreach : env.reaches_switch = true) (hk : env.color_type = k.code) :
    lib_channels k tRNS (transformsBeforeGamma (loadPng env).final.trace) =
      if tRNS = true ∧ (k = ColorKind.palette ∨ (k = ColorKind.gray ∧ env.bit_depth < 8))
      then 4 else 3 := by
  rw [transformsBeforeGamma_loadPng env hreach ((handled_iff_kind _).2 ⟨k, hk⟩), hk,
    normalize_eq_reference]
  by_cases h16 : env.bit_depth = 16
  · cases k <;> cases tRNS <;> simp [lib_channels, referenceTransforms, h16]
  · by_cases h8 : env.bit_depth < 8
    · cases k <;> cases tRNS <;> simp [lib_channels, referenceTransforms, h16, h8]
    · cases k <;> cases tRNS <;> simp [lib_channels, referenceTransforms, h16, h8]

/-- The check of line 63 on a run where `png_get_channels` answers what the library
semantics give for the requested transforms: it passes exactly when no tRNS chunk
meets a palette or sub-8-bit gray header. -/
theorem channel_check_of_library (env : Env) (k : ColorKind) (tRNS : Bool)
    (hreach : env.reaches_switch = true) (hk : env.color_type = k.code)
    (hupd : env.read_update_info_err = false)
    (hlib : env.channels =
      lib_channels k tRNS (transformsBeforeGamma (loadPng env).final.trace)) :
    env.reaches_allocation = true ↔
      ¬ (tRNS = true ∧ (k = ColorKind.palette ∨ (k = ColorKind.gray ∧ env.bit_depth < 8))) := by
  have hn := normalize_handled env.bit_depth _ ((handled_iff_kind _).2 ⟨k, hk⟩)
  rw [lib_channels_requested env k tRNS hreach hk] at hlib
  by_cases hc : tRNS = true ∧ (k = ColorKind.palette ∨ (k = ColorKind.gray ∧ env.bit_depth < 8))
  · rw [if_pos hc] at hlib
    simp [Env.reaches_allocation, Env.passes_normalization, hreach, hn, hupd, hlib, hc]
  · rw [if_neg hc] at hlib
    simp [Env.reaches_allocation, Env.passes_normalization, hreach, hn, hupd, hlib, hc]

/-- A failed check of line 63: nothing is allocated, and the value returned is what
the uninitialised `data` holds. -/
theorem loadPng_channel_check_fails (env : Env) (h : env.passes_normalization = true)
    (hch : env.channels ≠ 3) :
    (loadPng env).ret = env.stack_data ∧ (loadPng env).final.data_blk = none ∧
    (loadPng env).final.row_ptrs_blk = none := by
  have hs : env.reaches_setjmp = true := by
    simp only [Env.passes_normalization, Env.reaches_switch, Bool.and_eq_true] at h
    exact h.1.1
  obtain ⟨r1, -, -, -, r5, r6⟩ := loadPng_after_setjmp env hs
  have ha : env.reaches_allocation = false := by simp [Env.reaches_allocation, hch]
  have hd : env.data_assigned = false := by simp [Env.data_assigned, ha]
  have hr : env.reaches_row_loop = false := by simp [Env.reaches_row_loop, ha]
  exact ⟨by simpa [hd] using r1, by simpa [hr] using r5, by simpa [hr] using r6⟩

/-- Gamma requests of a run that passes format normalization, with the target gamma
as the constant of line 59. -/
theorem gamma_requests_loadPng (env : Env) (hreach : env.reaches_switch = true)
    (hct : HandledColorType env.color_type) :
    (loadPng env).final.trace.filter isGammaRequest =
        env.gAMA.toList.map (Call.png_set_gamma GAMMA_2_2) ∧
    (beforeCommit (loadPng env).final.trace).filter isGammaRequest =
        env.gAMA.toList.map (Call.png_set_gamma GAMMA_2_2) ∧
    Call.png_read_update_info ∈ (loadPng env).final.trace := by
  have hhead : ∀ c ∈ header_calls env ++ (normalize env.bit_depth env.color_type).1,
      isGammaRequest c = false ∧ c ≠ Call.png_read_update_info := by
    intro c hc
    rcases List.mem_append.1 hc with hc | hc
    · exact ⟨(header_calls_props env c hc).2.1, (header_calls_props env c hc).2.2.2⟩
    · have := isTransform_props c (normalize_transforms _ _ c hc)
      exact ⟨this.1, this.2.2⟩
  have hgam : ∀ c ∈ env.gAMA.toList.map (Call.png_set_gamma GAMMA_2_2),
      isGammaRequest c = true ∧ c ≠ Call.png_read_update_info := by
    intro c hc
    obtain ⟨g, -, rfl⟩ := List.mem_map.1 hc
    simp [isGammaRequest]
  have htail : ∀ c ∈ (if env.read_update_info_err then cleanup_calls
      else allocate_calls env env.height), isGammaRequest c = false := by
    intro c hc
    split_ifs at hc
    · simp [cleanup_calls] at hc
      rcases hc with rfl | rfl <;> rfl
    · exact (allocate_calls_no_config env _ c hc).1
  have hshape : (loadPng env).final.trace =
      (header_calls env ++ (normalize env.bit_depth env.color_type).1 ++
        Call.png_get_gAMA :: env.gAMA.toList.map (Call.png_set_gamma GAMMA_2_2)) ++
      Call.png_read_update_info ::
        (if env.read_update_info_err then cleanup_calls
         else allocate_calls env env.height) := by
    rw [loadPng_trace env hreach, normalize_handled _ _ hct]
    simp [gamma_and_update_calls]
  have hf1 : (header_calls env ++ (normalize env.bit_depth env.color_type).1).filter
      isGammaRequest = [] :=
    List.filter_eq_nil_iff.2 fun c hc => by simp [(hhead c hc).1]
  have hf2 : (env.gAMA.toList.map (Call.png_set_gamma GAMMA_2_2)).filter isGammaRequest =
      env.gAMA.toList.map (Call.png_set_gamma GAMMA_2_2) :=
    List.filter_eq_self.2 fun c hc => (hgam c hc).1
  have hf3 : (if env.read_update_info_err then cleanup_calls
      else allocate_calls env env.height).filter isGammaRequest = [] :=
    List.filter_eq_nil_iff.2 fun c hc => by simp [htail c hc]
  refine ⟨?_, ?_, ?_⟩
  · rw [hshape]
    simp only [List.filter_append, List.filter_cons, hf1, hf2, hf3, isGammaRequest]
    simp
  · rw [hshape, beforeCommit, takeWhile_stop]
    · simp only [List.filter_append, List.filter_cons, hf1, hf2, isGammaRequest]
      simp
    · intro c hc
      rcases List.mem_append.1 hc with hc | hc
      · simpa using (hhead c hc).2
      · rcases List.mem_cons.1 hc with rfl | hc
        · simp
        · simpa using (hgam c hc).2
    · simp
  · rw [hshape]
    simp

/-! ## The claims -/

/-- C1, at the failing input: a 65536 x 21846 8-bit RGB image decodes without error
and `loadPng` returns a buffer, the row size is `width*3`, yet the block allocated for
the buffer has 131072 bytes while `width*height*3` is 4295098368: the product
`rowbytes * *height` wrapped around in `uint32_t`. -/
theorem C1_alloc_wraps_around :
    Env.wide.decodes = true ∧ (loadPng Env.wide).ret ≠ 0 ∧
    Env.wide.rowbytes = Env.wide.width * 3 ∧
    (loadPng Env.wide).final.data_blk = some 131072 ∧
    Env.wide.width * Env.wide.height * 3 = 4295098368 := by
  decide

/-- C2, at the failing inputs: `png_read_image` signals an error after both blocks were
allocated; `loadPng` returns the pixel block (non-null) and both the pixel block and
the row-pointer table are still allocated at the return.  When `png_read_end` signals
the error, the table has been freed, and the pixel block is again returned and still
allocated. -/
theorem C2_decode_error_returns_buffer :
    (Env.corruptData.reaches_row_loop = true ∧ Env.corruptData.read_image_err = true ∧
      (loadPng Env.corruptData).ret = Env.corruptData.malloc_data ∧
      (loadPng Env.corruptData).ret ≠ 0 ∧
      (loadPng Env.corruptData).final.data_blk = some 12 ∧
      (loadPng Env.corruptData).final.row_ptrs_blk = some 16) ∧
    (Env.corruptEnd.reaches_row_loop = true ∧ Env.corruptEnd.read_end_err = true ∧
      (loadPng Env.corruptEnd).ret = Env.corruptEnd.malloc_data ∧
      (loadPng Env.corruptEnd).ret ≠ 0 ∧
      (loadPng Env.corruptEnd).final.data_blk = some 12 ∧
      (loadPng Env.corruptEnd).final.row_ptrs_blk = none) := by
  decide

/-- C3, at the failing input: with the reserved color type 5 no pixel block is
allocated, but the value returned is the uninitialised `data`, here a non-null
pointer. -/
theorem C3_unhandled_returns_uninitialised :
    Env.reservedColorType.reaches_switch = true ∧
    ¬ HandledColorType Env.reservedColorType.color_type ∧
    (loadPng Env.reservedColorType).final.data_blk = none ∧
    (loadPng Env.reservedColorType).ret = Env.reservedColorType.stack_data ∧
    (loadPng Env.reservedColorType).ret ≠ 0 := by
  decide

/-- C4, at the failing inputs: after a signature mismatch the stream opened at line 9
is still open when `loadPng` returns; when `png_create_info_struct` fails, the stream
is still open and the read struct has not been released. -/
theorem C4_early_return_leaks :
    (Env.badSignature.fopen_ok = true ∧
      png_sig_cmp (fread_sig Env.badSignature.file Env.badSignature.stack_sig) = true ∧
      (loadPng Env.badSignature).final.fp_open = true ∧
      Call.fclose ∉ (loadPng Env.badSignature).final.trace) ∧
    (Env.noInfoStruct.fopen_ok = true ∧
      (loadPng Env.noInfoStruct).final.fp_open = true ∧
      (loadPng Env.noInfoStruct).final.png_ptr_live = true ∧
      Call.png_destroy_read_struct ∉ (loadPng Env.noInfoStruct).final.trace) := by
  decide

/-- C5, at the failing input: the first `malloc` (row-pointer table) fails; nothing
stays allocated, but the value returned is the uninitialised `data`, here a non-null
pointer. -/
theorem C5_row_table_failure_returns_uninitialised :
    Env.rowTableOOM.reaches_allocation = true ∧ Env.rowTableOOM.malloc_row_ptrs = 0 ∧
    (loadPng Env.rowTableOOM).final.row_ptrs_blk = none ∧
    (loadPng Env.rowTableOOM).final.data_blk = none ∧
    (loadPng Env.rowTableOOM).ret = Env.rowTableOOM.stack_data ∧
    (loadPng Env.rowTableOOM).ret ≠ 0 := by
  decide

/-- C6, at the failing input: the file holds only the first four signature bytes, so
it does not start with the eight-byte signature; `fread` fills four bytes of `sig`, the
other four are what the stack held, the compare returns 0 and the decoder is
created; the run then returns a non-null value. -/
theorem C6_short_file_passes_signature_check :
    Env.truncatedFile.fopen_ok = true ∧ Env.truncatedFile.file.length = 4 ∧
    Env.truncatedFile.file.take 8 ≠ png_signature ∧
    png_sig_cmp (fread_sig Env.truncatedFile.file Env.truncatedFile.stack_sig) = false ∧
    Call.png_create_read_struct ∈ (loadPng Env.truncatedFile).final.trace ∧
    Call.png_create_info_struct ∈ (loadPng Env.truncatedFile).final.trace ∧
    (loadPng Env.truncatedFile).ret ≠ 0 := by
  decide

/-- C7: on every run that reaches the `switch` with one of the five handled color
types, the ordered list of transform requests made before gamma handling is the
reference table of the specification for that bit depth and color type. -/
theorem C7_transforms_match_reference (env : Env) (k : ColorKind)
    (hreach : env.reaches_switch = true) (hk : env.color_type = k.code) :
    transformsBeforeGamma (loadPng env).final.trace =
      referenceTransforms env.bit_depth k := by
  rw [transformsBeforeGamma_loadPng env hreach ((handled_iff_kind _).2 ⟨k, hk⟩), hk,
    normalize_eq_reference]

/-- C7 at a 16-bit gray-with-alpha header. -/
theorem C7_transforms_match_reference_witness :
    Env.grayAlpha16.reaches_switch = true ∧
    Env.grayAlpha16.color_type = ColorKind.grayAlpha.code ∧
    transformsBeforeGamma (loadPng Env.grayAlpha16).final.trace =
      referenceTransforms Env.grayAlpha16.bit_depth ColorKind.grayAlpha :=
  ⟨by decide, by decide,
    C7_transforms_match_reference Env.grayAlpha16 ColorKind.grayAlpha (by decide) (by decide)⟩

/-- C8, at the failing input: for the 65536 x 21846 image the loop is reached with
row size 196608 and the decoder is handed `data + i*rowbytes` for each of the 21846
rows, but the block has 131072 bytes, so already row 0, bytes 0 to 196608, does not
lie inside it. -/
theorem C8_row_outside_block :
    Env.wide.reaches_row_loop = true ∧ Env.wide.rowbytes32 = 196608 ∧
    Env.wide.height = 21846 ∧
    Call.png_read_image ((List.range 21846).map (row_ptr Env.wide.malloc_data 196608))
      ∈ (loadPng Env.wide).final.trace ∧
    row_ptr Env.wide.malloc_data 196608 0 = Env.wide.malloc_data ∧
    (loadPng Env.wide).final.data_blk = some 131072 ∧
    ¬ row_inside Env.wide.rowbytes32 Env.wide.height 0 :=
  ⟨by decide, by decide, by decide, loadPng_row_table Env.wide (by decide), by decide,
    by decide, by decide⟩

/-- C9, at the failing inputs: an 8-bit palette header with a tRNS chunk is a valid
header of a documented color type; the only transform requested is the expansion,
which under the library semantics leaves four channels; on the run where
`png_get_channels` answers these four channels the check of line 63 fails: no row
size is queried, no block is allocated, and the value returned is the uninitialised
`data`, here non-null.  The same happens for a 4-bit gray header with a tRNS chunk. -/
theorem C9_tRNS_leaves_four_channels :
    (Env.paletteWithTRNS.reaches_switch = true ∧
      Env.paletteWithTRNS.color_type = ColorKind.palette.code ∧
      LegalBitDepth Env.paletteWithTRNS.bit_depth ColorKind.palette ∧
      Env.paletteWithTRNS.read_update_info_err = false ∧
      transformsBeforeGamma (loadPng Env.paletteWithTRNS).final.trace =
        [Call.png_set_expand] ∧
      lib_channels ColorKind.palette true
        (transformsBeforeGamma (loadPng Env.paletteWithTRNS).final.trace) = 4 ∧
      Env.paletteWithTRNS.channels = lib_channels ColorKind.palette true
        (transformsBeforeGamma (loadPng Env.paletteWithTRNS).final.trace) ∧
      Call.png_get_channels ∈ (loadPng Env.paletteWithTRNS).final.trace ∧
      Call.png_get_rowbytes ∉ (loadPng Env.paletteWithTRNS).final.trace ∧
      Env.paletteWithTRNS.reaches_allocation = false ∧
      (loadPng Env.paletteWithTRNS).final.data_blk = none ∧
      (loadPng Env.paletteWithTRNS).ret = Env.paletteWithTRNS.stack_data ∧
      (loadPng Env.paletteWithTRNS).ret ≠ 0) ∧
    (Env.gray4WithTRNS.reaches_switch = true ∧
      Env.gray4WithTRNS.color_type = ColorKind.gray.code ∧
      LegalBitDepth Env.gray4WithTRNS.bit_depth ColorKind.gray ∧
      Env.gray4WithTRNS.read_update_info_err = false ∧
      transformsBeforeGamma (loadPng Env.gray4WithTRNS).final.trace =
        [Call.png_set_expand, Call.png_set_gray_to_rgb] ∧
      Env.gray4WithTRNS.channels = lib_channels ColorKind.gray true
        (transformsBeforeGamma (loadPng Env.gray4WithTRNS).final.trace) ∧
      Env.gray4WithTRNS.channels = 4 ∧
      Call.png_get_rowbytes ∉ (loadPng Env.gray4WithTRNS).final.trace ∧
      Env.gray4WithTRNS.reaches_allocation = false ∧
      (loadPng Env.gray4WithTRNS).final.data_blk = none ∧
      (loadPng Env.gray4WithTRNS).ret ≠ 0) := by
  decide

/-- C10: on every run that passes format normalization (the `switch` is reached with
a handled color type), the gamma requests of the whole run are: none when no gamma is
declared, and exactly one `png_set_gamma(2.2, declared)` when one is, where 2.2 is
the binary64 value `0x400199999999999A`; that request lies before
`png_read_update_info`, which is always called. -/
theorem C10_gamma_request (env : Env) (hreach : env.reaches_switch = true)
    (hct : HandledColorType env.color_type) :
    (loadPng env).final.trace.filter isGammaRequest =
        env.gAMA.toList.map (Call.png_set_gamma ⟨0x400199999999999A⟩) ∧
    (beforeCommit (loadPng env).final.trace).filter isGammaRequest =
        env.gAMA.toList.map (Call.png_set_gamma ⟨0x400199999999999A⟩) ∧
    Call.png_read_update_info ∈ (loadPng env).final.trace :=
  gamma_requests_loadPng env hreach hct

/-- C10 at a header that declares a gamma. -/
theorem C10_gamma_request_witness :
    Env.grayAlpha16.reaches_switch = true ∧
    HandledColorType Env.grayAlpha16.color_type ∧
    (loadPng Env.grayAlpha16).final.trace.filter isGammaRequest =
        Env.grayAlpha16.gAMA.toList.map (Call.png_set_gamma ⟨0x400199999999999A⟩) ∧
    (beforeCommit (loadPng Env.grayAlpha16).final.trace).filter isGammaRequest =
        Env.grayAlpha16.gAMA.toList.map (Call.png_set_gamma ⟨0x400199999999999A⟩) ∧
    Call.png_read_update_info ∈ (loadPng Env.grayAlpha16).final.trace :=
  ⟨by decide, by decide, C10_gamma_request Env.grayAlpha16 (by decide) (by decide)⟩

end Voxelz
